import Mathlib

/-!
Shallow embedding of `app/urbanomy_api/modules/urban_api_gateway.py`
(class `UrbanAPIGateway`), together with proofs about the behaviour of
its operations.

Modelling conventions:
* JSON values exchanged with the remote Urban API are modelled by `JVal`.
* A source descriptor (one entry of the functional-zone sources list) is a
  record with its `source` and `year` fields made explicit; all remaining
  passthrough fields are abstracted by a single `payload` tag, which is
  enough to distinguish descriptors from each other.
* Fallible Python code is modelled with `Except`: a raised
  `http_exception(status, msg, ident)` becomes `Err.httpException`, while
  an unhandled Python exception (e.g. pandas raising on `idxmax` of an
  empty series, or an `AttributeError`) becomes `Err.unhandled`.
* The external HTTP handler is an excluded collaborator; each operation
  receives the remote response (or the remote failure) as an argument.
* The geospatial engine (geopandas) is likewise an excluded collaborator:
  its CRS estimation is passed in as a function argument, and reprojection
  is recorded symbolically by the `Geom.reprojected` constructor.
-/

namespace UrbanAPIGateway

/-- A JSON value, as delivered by the remote Urban API. -/
inductive JVal where
  | null : JVal
  | num (n : Int) : JVal
  | str (s : String) : JVal
  | bool (b : Bool) : JVal
  | obj (fields : List (String × JVal)) : JVal
  deriving Repr

/-- One entry of the functional-zone sources list: a record carrying a
`source` label and a `year`, plus a tag abstracting any further
passthrough fields of the JSON record. -/
structure SourceDescriptor where
  source : String
  year : Int
  payload : Nat
  deriving Repr, DecidableEq

/-- How an operation of the gateway fails: either through the
`http_exception` helper (a structured error with an HTTP status code, a
message and the offending identifier, rendered as a string), or through
an unhandled Python exception escaping the operation. -/
inductive Err where
  | httpException (statusCode : Nat) (msg : String) (ident : String) : Err
  | unhandled (msg : String) : Err
  deriving Repr, DecidableEq

/-- Is the outcome a structured 404 produced by `http_exception`? -/
def isNotFound404 {α : Type} : Except Err α → Bool
  | Except.error (Err.httpException 404 _ _) => true
  | _ => false

/-- First record achieving the maximum `year` (pandas
`Series.idxmax` keeps the first index attaining the maximum, and
`df.loc[idx]` then recovers that row). -/
def maxYearFirst : List SourceDescriptor → Option SourceDescriptor
  | [] => none
  | x :: xs =>
    match maxYearFirst xs with
    | none => some x
    | some y => if y.year ≤ x.year then some x else some y

/-- pandas `df[df["source"] == lbl]["year"].idxmax()` followed by
`df.loc[idx].to_dict()`, applied to an already filtered list: on an empty
selection pandas raises `ValueError` (an unhandled exception here). -/
def idxmaxYear (l : List SourceDescriptor) : Except Err SourceDescriptor :=
  match maxYearFirst l with
  | some r => Except.ok r
  | none => Except.error (Err.unhandled "attempt to get argmax of an empty sequence")

/-- `UrbanAPIGateway._form_source_params`: single-element lists are
returned unchanged; otherwise the OSM records are preferred, then PZZ,
with an unconditional fallback to User, each resolved by max-year. -/
def form_source_params (sources : List SourceDescriptor) : Except Err SourceDescriptor :=
  match sources with
  | [s] => Except.ok s
  | _ =>
    if sources.any (fun item => item.source == "OSM") then
      idxmaxYear (sources.filter (fun item => item.source == "OSM"))
    else if sources.any (fun item => item.source == "PZZ") then
      idxmaxYear (sources.filter (fun item => item.source == "PZZ"))
    else
      idxmaxYear (sources.filter (fun item => item.source == "User"))

/-- The highest-priority label present in the sources list, with priority
order OSM, then PZZ, then User (the claim's wording of the selection
rule). -/
def priorityLabel (sources : List SourceDescriptor) : Option String :=
  if sources.any (fun item => item.source == "OSM") then some "OSM"
  else if sources.any (fun item => item.source == "PZZ") then some "PZZ"
  else if sources.any (fun item => item.source == "User") then some "User"
  else none

/-- The selection succeeded and picked a member of the list carrying the
label `lbl` whose `year` is maximal among the records with that label. -/
def bestPick (sources : List SourceDescriptor) (lbl : String) : Prop :=
  match form_source_params sources with
  | Except.ok r => r ∈ sources ∧ r.source = lbl ∧ ∀ d ∈ sources, d.source = lbl → d.year ≤ r.year
  | Except.error _ => False

/-- `UrbanAPIGateway.get_functional_zone_sources`: raises 404 on an empty
remote list; with a truthy explicit `source` argument returns the first
matching descriptor or raises 404 carrying the source name; with a falsy
argument (Python `None` or the empty string) delegates to
`_form_source_params`. -/
def get_functional_zone_sources (scenario_id : Int) (response : List SourceDescriptor)
    (source : Option String) : Except Err SourceDescriptor :=
  if response.isEmpty then
    Except.error (Err.httpException 404 "No functional zone sources found for scenario_id"
      (toString scenario_id))
  else
    match source with
    | some s =>
      if s.isEmpty then form_source_params response
      else
        match List.find? (fun d => d.source == s) response with
        | some source_data => Except.ok source_data
        | none => Except.error (Err.httpException 404 "No data found for the specified source" s)
    | none => form_source_params response

/-- A GeoJSON feature of the functional-zones response: its properties
mapping and its geometry. -/
structure Feature where
  properties : List (String × JVal)
  geometry : JVal

/-- One row of a GeoDataFrame: an association list from column name to
cell value (a missing cell is simply an absent key; pandas NaN produced
by the extraction lambdas is modelled by `JVal.null`, which is how the
code treats it as well). -/
abbrev Row := List (String × JVal)

/-- A GeoDataFrame, row-wise. -/
abbrev Table := List Row

/-- Column assignment `df[k] = v` for one row: overwrite the existing
column, else append the new column at the end. -/
def setCol : Row → String → JVal → Row
  | [], k, v => [(k, v)]
  | kv :: t, k, v => if kv.1 == k then (k, v) :: t else kv :: setCol t k v

/-- The bookkeeping columns dropped by `get_functional_zones`
(`errors="ignore"`: absent columns are skipped silently). -/
def dropColumns : List String :=
  ["properties", "functional_zone_type", "territory", "created_at", "updated_at",
   "zone_type_name", "functional_zone_id", "year", "source", "name"]

/-- `landuse_polygons["properties"].apply(lambda x: x.get("landuse_zon") if
isinstance(x, dict) else None)` for one feature. -/
def extract_landuse_zone (f : Feature) : JVal :=
  match (List.lookup "properties" f.properties).getD JVal.null with
  | JVal.obj kvs => (List.lookup "landuse_zon" kvs).getD JVal.null
  | _ => JVal.null

/-- `landuse_polygons["functional_zone_type"].apply(lambda x: x.get("id") if
isinstance(x, dict) else None)` for one feature. -/
def extract_zone_type_id (f : Feature) : JVal :=
  match (List.lookup "functional_zone_type" f.properties).getD JVal.null with
  | JVal.obj kvs => (List.lookup "id" kvs).getD JVal.null
  | _ => JVal.null

/-- `lambda x: x.get("name") if isinstance(x, dict) and x.get("name") !=
"unknown" else "residential"` for one feature. -/
def extract_zone_type_name (f : Feature) : JVal :=
  match (List.lookup "functional_zone_type" f.properties).getD JVal.null with
  | JVal.obj kvs =>
    match (List.lookup "name" kvs).getD JVal.null with
    | JVal.str "unknown" => JVal.str "residential"
    | v => v
  | _ => JVal.str "residential"

/-- Python `x is None` on a cell value. -/
def JVal.isNull : JVal → Bool
  | JVal.null => true
  | _ => false

/-- `df.replace` value mapping for the `landuse_zone` column:
`{None: "Residential"}`. -/
def replace_landuse_zone (v : JVal) : JVal :=
  if v.isNull then JVal.str "Residential" else v

/-- Is the cell the number 14? -/
def JVal.isNum14 : JVal → Bool
  | JVal.num n => n == 14
  | _ => false

/-- `df.replace` value mapping for the `zone_type_id` column: `{14: 1}`. -/
def replace_zone_type_id (v : JVal) : JVal :=
  if v.isNum14 then JVal.num 1 else v

/-- The whole `df.replace({...})` call, per column name. -/
def replaceVal (k : String) (v : JVal) : JVal :=
  if k == "landuse_zone" then replace_landuse_zone v
  else if k == "zone_type_id" then replace_zone_type_id v
  else v

/-- `"properties" in landuse_polygons.columns`: the column exists after
`GeoDataFrame.from_features` iff some feature's properties carry the key. -/
def propsColumnPresent (zones_response : List Feature) : Bool :=
  zones_response.any (fun f => (List.lookup "properties" f.properties).isSome)

/-- `"functional_zone_type" in landuse_polygons.columns`. -/
def fztColumnPresent (zones_response : List Feature) : Bool :=
  zones_response.any (fun f => (List.lookup "functional_zone_type" f.properties).isSome)

/-- The column pipeline of `get_functional_zones` applied to one row:
assignment of `landuse_zone` (when the `properties` column exists),
assignment of `zone_type_id` and `zone_type_name` (when the
`functional_zone_type` column exists), dropping of the bookkeeping
columns, and the final `replace`. -/
def zones_row (hasProps hasFZT : Bool) (f : Feature) : Row :=
  let base := setCol f.properties "geometry" f.geometry
  let r1 := if hasProps then setCol base "landuse_zone" (extract_landuse_zone f) else base
  let r2 :=
    if hasFZT then
      setCol (setCol r1 "zone_type_id" (extract_zone_type_id f))
        "zone_type_name" (extract_zone_type_name f)
    else r1
  List.map (fun kv => (kv.1, replaceVal kv.1 kv.2))
    (List.filter (fun kv => !(dropColumns.contains kv.1)) r2)

/-- The table produced from the fetched features by the column pipeline
of `get_functional_zones`. -/
def transform_zones (zones_response : List Feature) : Table :=
  List.map (zones_row (propsColumnPresent zones_response) (fztColumnPresent zones_response))
    zones_response

/-- `UrbanAPIGateway.get_functional_zones`: resolves the source via
`get_functional_zone_sources` (propagating its errors), transforms the
fetched features, and raises 404 when the response carries zero features.
The remote response is assumed to be a feature collection (a mapping with
a `features` key), which is the schema the module relies on; the guard
re-checking `source`/`year` on the resolved descriptor can never fire
because a `SourceDescriptor` always carries both fields. -/
def get_functional_zones (scenario_id : Int) (is_context : Bool)
    (sources_response : List SourceDescriptor) (source : Option String)
    (zones_response : List Feature) : Except Err Table :=
  match get_functional_zone_sources scenario_id sources_response source with
  | Except.error e => Except.error e
  | Except.ok _source_data =>
    let landuse_polygons := transform_zones zones_response
    if zones_response.isEmpty then
      Except.error (Err.httpException 404 "No functional zones found for the given scenario ID"
        (toString scenario_id))
    else
      Except.ok landuse_polygons

/-- Python `obj.get(key, default)`: returns the value (or the default) on
a dict, raises `AttributeError` on anything else. -/
def dict_get (obj : JVal) (key : String) (default : JVal) : Except String JVal :=
  match obj with
  | JVal.obj fields => Except.ok ((List.lookup key fields).getD default)
  | _ => Except.error "AttributeError"

/-- `UrbanAPIGateway.get_project_id`: evaluates
`response.get("project", {}).get("project_id")` under a try/except that
converts any raised exception into a 404. Note that `dict.get` returns
`None` (`JVal.null`) for absent keys instead of raising. -/
def get_project_id (scenario_id : Int) (scenario_response : JVal) : Except Err JVal :=
  match dict_get scenario_response "project" (JVal.obj []) with
  | Except.error _ =>
    Except.error (Err.httpException 404 "Project ID is missing in scenario data."
      (toString scenario_id))
  | Except.ok project =>
    match dict_get project "project_id" JVal.null with
    | Except.error _ =>
      Except.error (Err.httpException 404 "Project ID is missing in scenario data."
        (toString scenario_id))
    | Except.ok project_id => Except.ok project_id

/-- A geometry held by a GeoDataFrame: either a raw GeoJSON geometry, or
the symbolic result of reprojecting a geometry between two CRSs (the
actual coordinate arithmetic lives in the excluded geospatial engine). -/
inductive Geom where
  | raw (geometry : JVal) : Geom
  | reprojected (src dst : String) (g : Geom) : Geom
  deriving Repr

/-- A single-geometry-column GeoDataFrame: its CRS and its geometries. -/
structure GeoFrame where
  crs : String
  geoms : List Geom
  deriving Repr

/-- `UrbanAPIGateway.get_territory`: resolves the project id, fetches the
territory (converting a remote failure into a 404), wraps the response's
`geometry` member as a one-feature frame in EPSG:4326, and reprojects it
to the CRS estimated by `estimate_utm_crs`. Indexing `response["geometry"]`
is outside the try/except, so a malformed response escapes unhandled. -/
def get_territory (scenario_id : Int) (scenario_response : JVal)
    (territory_response : Except String JVal) (estimate_utm_crs : GeoFrame → String) :
    Except Err GeoFrame :=
  match get_project_id scenario_id scenario_response with
  | Except.error e => Except.error e
  | Except.ok _project_id =>
    match territory_response with
    | Except.error _ =>
      Except.error (Err.httpException 404 "No territory found for the given scenario ID"
        (toString scenario_id))
    | Except.ok response =>
      match response with
      | JVal.obj fields =>
        match List.lookup "geometry" fields with
        | some territory_geometry =>
          let polygon_gdf : GeoFrame := ⟨"EPSG:4326", [Geom.raw territory_geometry]⟩
          let utm := estimate_utm_crs polygon_gdf
          Except.ok ⟨utm, List.map (Geom.reprojected "EPSG:4326" utm) polygon_gdf.geoms⟩
        | none => Except.error (Err.unhandled "KeyError: geometry")
      | _ => Except.error (Err.unhandled "TypeError: value is not subscriptable")

/-- `UrbanAPIGateway.get_indicator_values`: returns the remote response
verbatim; a remote failure caught by the try/except becomes a 404. -/
def get_indicator_values (scenario_id : Int) (remote : Except String JVal) : Except Err JVal :=
  match remote with
  | Except.ok response => Except.ok response
  | Except.error _ =>
    Except.error (Err.httpException 404 "No indicators values found for the given scenario ID"
      (toString scenario_id))

/-- A returned functional-zones row carries the stable output columns
`landuse_zone`, `zone_type_id` and `geometry`, and none of the
bookkeeping columns. -/
def prunedRow (r : Row) : Prop :=
  (List.lookup "landuse_zone" r).isSome = true ∧
  (List.lookup "zone_type_id" r).isSome = true ∧
  (List.lookup "geometry" r).isSome = true ∧
  ∀ c ∈ dropColumns, List.lookup c r = none

/-- `get_functional_zones` succeeds and every row of the returned table
is pruned to the stable output columns. -/
def returnsPrunedTable (scenario_id : Int) (is_context : Bool)
    (sources_response : List SourceDescriptor) (source : Option String)
    (zones_response : List Feature) : Prop :=
  match get_functional_zones scenario_id is_context sources_response source zones_response with
  | Except.ok t => ∀ r ∈ t, prunedRow r
  | Except.error _ => False

/-- The `i`-th row of a successfully returned table, if any. -/
def tableRow? (e : Except Err Table) (i : Nat) : Option Row :=
  match e with
  | Except.error _ => none
  | Except.ok t => t[i]?

/-- `get_functional_zones` succeeds and its `i`-th row carries the
defaulted `landuse_zone`/`zone_type_id` values extracted from the `i`-th
fetched feature `f`: a null extracted `landuse_zone` becomes
`"Residential"`, an extracted `zone_type_id` of 14 becomes 1, and all
other extracted values are returned unchanged. -/
def zoneRowFaithful (scenario_id : Int) (is_context : Bool)
    (sources_response : List SourceDescriptor) (source : Option String)
    (zones_response : List Feature) (i : Nat) (f : Feature) : Prop :=
  match tableRow?
      (get_functional_zones scenario_id is_context sources_response source zones_response) i with
  | none => False
  | some r =>
    (extract_landuse_zone f = JVal.null →
      List.lookup "landuse_zone" r = some (JVal.str "Residential")) ∧
    (extract_landuse_zone f ≠ JVal.null →
      List.lookup "landuse_zone" r = some (extract_landuse_zone f)) ∧
    (extract_zone_type_id f = JVal.num 14 →
      List.lookup "zone_type_id" r = some (JVal.num 1)) ∧
    (extract_zone_type_id f ≠ JVal.num 14 →
      List.lookup "zone_type_id" r = some (extract_zone_type_id f))

/-- A sample remote feature whose nested `landuse_zon` is null and whose
zone-type id is the sentinel 14. -/
def featureNullAnd14 : Feature :=
  ⟨[("properties", JVal.obj [("landuse_zon", JVal.null)]),
    ("functional_zone_type", JVal.obj [("id", JVal.num 14), ("name", JVal.str "unknown")])],
   JVal.str "poly0"⟩

/-- A sample remote feature with ordinary extracted values and some
bookkeeping columns. -/
def featureIndustrial : Feature :=
  ⟨[("properties", JVal.obj [("landuse_zon", JVal.str "Industrial")]),
    ("functional_zone_type", JVal.obj [("id", JVal.num 3), ("name", JVal.str "industrial")]),
    ("year", JVal.num 2020), ("source", JVal.str "OSM")],
   JVal.str "poly1"⟩

/-! ### Lemmas about the source-selection rule -/

theorem maxYearFirst_cons (x : SourceDescriptor) (xs : List SourceDescriptor) :
    maxYearFirst (x :: xs) =
      match maxYearFirst xs with
      | none => some x
      | some y => if y.year ≤ x.year then some x else some y := rfl

theorem maxYearFirst_spec (l : List SourceDescriptor) (hne : l ≠ []) :
    ∃ r, maxYearFirst l = some r ∧ r ∈ l ∧ ∀ d ∈ l, d.year ≤ r.year := by
  induction l with
  | nil => exact absurd rfl hne
  | cons x xs ih =>
    cases hmx : maxYearFirst xs with
    | none =>
      have hxs : xs = [] := by
        cases xs with
        | nil => rfl
        | cons y ys =>
          rw [maxYearFirst_cons] at hmx
          cases hys : maxYearFirst ys with
          | none => rw [hys] at hmx; simp at hmx
          | some z =>
            rw [hys] at hmx
            by_cases hz : z.year ≤ y.year <;> simp [hz] at hmx
      subst hxs
      refine ⟨x, rfl, by simp, ?_⟩
      intro d hd
      simp at hd
      simp [hd]
    | some r =>
      have hxs : xs ≠ [] := by
        intro h
        subst h
        simp [maxYearFirst] at hmx
      obtain ⟨r2, hr2, hmem, hmax⟩ := ih hxs
      rw [hmx] at hr2
      have heq : r = r2 := by injection hr2
      subst heq
      rw [maxYearFirst_cons, hmx]
      by_cases hle : r.year ≤ x.year
      · refine ⟨x, by simp [hle], by simp, ?_⟩
        intro d hd
        rcases List.mem_cons.mp hd with h | h
        · simp [h]
        · exact le_trans (hmax d h) hle
      · refine ⟨r, by simp [hle], List.mem_cons_of_mem x hmem, ?_⟩
        intro d hd
        rcases List.mem_cons.mp hd with h | h
        · exact h ▸ le_of_not_le hle
        · exact hmax d h

theorem idxmaxYear_filter (sources : List SourceDescriptor) (lbl : String)
    (hany : sources.any (fun item => item.source == lbl) = true) :
    ∃ r, idxmaxYear (sources.filter (fun item => item.source == lbl)) = Except.ok r ∧
      r ∈ sources ∧ r.source = lbl ∧ ∀ d ∈ sources, d.source = lbl → d.year ≤ r.year := by
  obtain ⟨x, hx, hpx⟩ := List.any_eq_true.mp hany
  have hne : sources.filter (fun item => item.source == lbl) ≠ [] :=
    List.ne_nil_of_mem (List.mem_filter.mpr ⟨hx, hpx⟩)
  obtain ⟨r, hr, hmem, hmax⟩ := maxYearFirst_spec _ hne
  obtain ⟨hrmem, hrlbl⟩ := List.mem_filter.mp hmem
  refine ⟨r, ?_, hrmem, beq_iff_eq.mp hrlbl, ?_⟩
  · simp [idxmaxYear, hr]
  · intro d hd hdlbl
    exact hmax d (List.mem_filter.mpr ⟨hd, beq_iff_eq.mpr hdlbl⟩)

theorem form_source_params_cons_cons (a b : SourceDescriptor) (t : List SourceDescriptor) :
    form_source_params (a :: b :: t) =
      (if (a :: b :: t).any (fun item => item.source == "OSM") then
        idxmaxYear ((a :: b :: t).filter (fun item => item.source == "OSM"))
      else if (a :: b :: t).any (fun item => item.source == "PZZ") then
        idxmaxYear ((a :: b :: t).filter (fun item => item.source == "PZZ"))
      else
        idxmaxYear ((a :: b :: t).filter (fun item => item.source == "User"))) := rfl

theorem bestPick_of_ok (sources : List SourceDescriptor) (lbl : String) (r : SourceDescriptor)
    (h : form_source_params sources = Except.ok r) (hmem : r ∈ sources) (hlbl : r.source = lbl)
    (hmax : ∀ d ∈ sources, d.source = lbl → d.year ≤ r.year) : bestPick sources lbl := by
  unfold bestPick
  rw [h]
  exact ⟨hmem, hlbl, hmax⟩

/-- C1: for every non-empty sources list, `_form_source_params` returns
the sole element unchanged when the list has exactly one element, and
otherwise picks a record of the highest-priority label present (priority
OSM, then PZZ, then User) whose `year` is maximal among that label. -/
theorem C1_form_source_params (sources : List SourceDescriptor) :
    (∀ s, sources = [s] → form_source_params sources = Except.ok s) ∧
    (∀ lbl, 2 ≤ sources.length → priorityLabel sources = some lbl → bestPick sources lbl) := by
  refine ⟨fun s hs => by subst hs; rfl, fun lbl hlen hlbl => ?_⟩
  obtain ⟨a, b, t, rfl⟩ : ∃ a b t, sources = a :: b :: t := by
    cases sources with
    | nil => simp at hlen
    | cons a rest =>
      cases rest with
      | nil => simp at hlen
      | cons b t => exact ⟨a, b, t, rfl⟩
  by_cases hOSM : (a :: b :: t).any (fun item => item.source == "OSM") = true
  · have hl : lbl = "OSM" := by
      unfold priorityLabel at hlbl
      rw [if_pos hOSM] at hlbl
      exact (Option.some_inj.mp hlbl).symm
    subst hl
    obtain ⟨r, hr, hmem, hlblr, hmax⟩ := idxmaxYear_filter (a :: b :: t) "OSM" hOSM
    exact bestPick_of_ok _ _ r
      (by rw [form_source_params_cons_cons, if_pos hOSM]; exact hr) hmem hlblr hmax
  · by_cases hPZZ : (a :: b :: t).any (fun item => item.source == "PZZ") = true
    · have hl : lbl = "PZZ" := by
        unfold priorityLabel at hlbl
        rw [if_neg hOSM, if_pos hPZZ] at hlbl
        exact (Option.some_inj.mp hlbl).symm
      subst hl
      obtain ⟨r, hr, hmem, hlblr, hmax⟩ := idxmaxYear_filter (a :: b :: t) "PZZ" hPZZ
      exact bestPick_of_ok _ _ r
        (by rw [form_source_params_cons_cons, if_neg hOSM, if_pos hPZZ]; exact hr) hmem hlblr hmax
    · have hUser : (a :: b :: t).any (fun item => item.source == "User") = true := by
        unfold priorityLabel at hlbl
        rw [if_neg hOSM, if_neg hPZZ] at hlbl
        by_cases h : (a :: b :: t).any (fun item => item.source == "User") = true
        · exact h
        · rw [if_neg h] at hlbl
          simp at hlbl
      have hl : lbl = "User" := by
        unfold priorityLabel at hlbl
        rw [if_neg hOSM, if_neg hPZZ, if_pos hUser] at hlbl
        exact (Option.some_inj.mp hlbl).symm
      subst hl
      obtain ⟨r, hr, hmem, hlblr, hmax⟩ := idxmaxYear_filter (a :: b :: t) "User" hUser
      exact bestPick_of_ok _ _ r
        (by rw [form_source_params_cons_cons, if_neg hOSM, if_neg hPZZ]; exact hr) hmem hlblr hmax

/-- Witness for C1 at the spec's own examples: among
`[(OSM,2020), (OSM,2022), (User,2019)]` the 2022 OSM record is best, among
`[(PZZ,2021), (User,2023)]` the PZZ record is best, and a singleton list
is returned unchanged. -/
theorem C1_form_source_params_witness :
    bestPick [⟨"OSM", 2020, 0⟩, ⟨"OSM", 2022, 1⟩, ⟨"User", 2019, 2⟩] "OSM" ∧
    bestPick [⟨"PZZ", 2021, 0⟩, ⟨"User", 2023, 1⟩] "PZZ" ∧
    form_source_params [⟨"User", 1999, 7⟩] = Except.ok ⟨"User", 1999, 7⟩ :=
  ⟨(C1_form_source_params _).2 "OSM" (by decide) rfl,
   (C1_form_source_params _).2 "PZZ" (by decide) rfl,
   (C1_form_source_params _).1 _ rfl⟩

/-- C2 counterexample: on a two-element list carrying neither OSM nor PZZ
nor User the selection does not signal a structured 404; it escapes with
the unhandled pandas error raised by `idxmax` on an empty selection. -/
theorem C2_counterexample :
    isNotFound404 (form_source_params [⟨"A", 2001, 0⟩, ⟨"B", 2002, 1⟩]) = false ∧
    form_source_params [⟨"A", 2001, 0⟩, ⟨"B", 2002, 1⟩] =
      Except.error (Err.unhandled "attempt to get argmax of an empty sequence") :=
  ⟨rfl, rfl⟩

/-- C2 (amended): with two or more descriptors none of which is labelled
OSM, PZZ or User, `_form_source_params` fails with an unhandled error
(pandas `idxmax` over an empty selection), not with a structured 404. -/
theorem C2_unlabelled_unhandled (sources : List SourceDescriptor)
    (hlen : 2 ≤ sources.length)
    (hno : ∀ d ∈ sources, d.source ≠ "OSM" ∧ d.source ≠ "PZZ" ∧ d.source ≠ "User") :
    form_source_params sources =
      Except.error (Err.unhandled "attempt to get argmax of an empty sequence") ∧
    isNotFound404 (form_source_params sources) = false := by
  obtain ⟨a, b, t, rfl⟩ : ∃ a b t, sources = a :: b :: t := by
    cases sources with
    | nil => simp at hlen
    | cons a rest =>
      cases rest with
      | nil => simp at hlen
      | cons b t => exact ⟨a, b, t, rfl⟩
  have hOSM : (a :: b :: t).any (fun item => item.source == "OSM") = false :=
    List.any_eq_false.mpr (fun d hd => by
      simp only [Bool.not_eq_true, beq_eq_false_iff_ne, ne_eq]
      exact (hno d hd).1)
  have hPZZ : (a :: b :: t).any (fun item => item.source == "PZZ") = false :=
    List.any_eq_false.mpr (fun d hd => by
      simp only [Bool.not_eq_true, beq_eq_false_iff_ne, ne_eq]
      exact (hno d hd).2.1)
  have hUserFilter : List.filter (fun item => item.source == "User") (a :: b :: t) = [] :=
    List.filter_eq_nil_iff.mpr (fun d hd => by
      simp only [Bool.not_eq_true, beq_eq_false_iff_ne, ne_eq]
      exact (hno d hd).2.2)
  have hmain : form_source_params (a :: b :: t) =
      Except.error (Err.unhandled "attempt to get argmax of an empty sequence") := by
    rw [form_source_params_cons_cons, if_neg (by simp [hOSM]), if_neg (by simp [hPZZ]),
      hUserFilter]
    rfl
  exact ⟨hmain, by rw [hmain]; rfl⟩

/-- Witness for the amended C2 at a concrete unlabelled list. -/
theorem C2_unlabelled_unhandled_witness :
    form_source_params [⟨"Custom", 2020, 0⟩, ⟨"Derived", 2021, 1⟩, ⟨"Other", 2019, 2⟩] =
      Except.error (Err.unhandled "attempt to get argmax of an empty sequence") ∧
    isNotFound404
      (form_source_params [⟨"Custom", 2020, 0⟩, ⟨"Derived", 2021, 1⟩, ⟨"Other", 2019, 2⟩]) =
      false :=
  C2_unlabelled_unhandled _ (by decide) (by decide)

/-! ### Claims about `get_functional_zone_sources` -/

/-- C5 counterexample: with the explicit source argument `""` (which no
descriptor carries), the lookup does not fail with a 404 carrying the
requested name — Python's `if source:` is falsy on the empty string, so
the code silently falls back to automatic selection and succeeds. -/
theorem C5_counterexample :
    get_functional_zone_sources 3 [⟨"OSM", 2020, 0⟩] (some "") = Except.ok ⟨"OSM", 2020, 0⟩ ∧
    isNotFound404 (get_functional_zone_sources 3 [⟨"OSM", 2020, 0⟩] (some "")) = false :=
  ⟨rfl, rfl⟩

/-- C5 (amended): for a non-empty sources list and a non-empty explicit
source argument matched by no descriptor, the lookup fails with a 404
carrying the requested source name. -/
theorem C5_no_matching_source (scenario_id : Int) (response : List SourceDescriptor)
    (s : String) (hne : response ≠ []) (hs : s ≠ "")
    (hmatch : ∀ d ∈ response, d.source ≠ s) :
    get_functional_zone_sources scenario_id response (some s) =
      Except.error (Err.httpException 404 "No data found for the specified source" s) := by
  have hemp : response.isEmpty = false := by
    cases response with
    | nil => exact absurd rfl hne
    | cons a t => rfl
  have hsemp : s.isEmpty = false := by
    cases h : s.isEmpty with
    | false => rfl
    | true => exact absurd ((String.isEmpty_iff s).mp h) hs
  have hfind : List.find? (fun d => d.source == s) response = none :=
    List.find?_eq_none.mpr (fun d hd => by
      simp only [Bool.not_eq_true, beq_eq_false_iff_ne, ne_eq]
      exact hmatch d hd)
  simp [get_functional_zone_sources, hemp, hsemp, hfind]

/-- Witness for the amended C5: requesting OSM when only PZZ is present
fails with a 404 carrying the name OSM. -/
theorem C5_no_matching_source_witness :
    get_functional_zone_sources 1 [⟨"PZZ", 2021, 0⟩] (some "OSM") =
      Except.error (Err.httpException 404 "No data found for the specified source" "OSM") :=
  C5_no_matching_source 1 [⟨"PZZ", 2021, 0⟩] "OSM" (by decide) (by decide) (by decide)

/-- C10 counterexample: the argument `""` matches the first descriptor,
yet the lookup returns a different record — `if source:` is falsy on the
empty string, so the code runs the priority selection instead of the
first-match scan. -/
theorem C10_counterexample :
    get_functional_zone_sources 4 [⟨"", 2025, 0⟩, ⟨"OSM", 2003, 1⟩] (some "") =
      Except.ok ⟨"OSM", 2003, 1⟩ ∧
    List.find? (fun d : SourceDescriptor => d.source == "")
      [⟨"", 2025, 0⟩, ⟨"OSM", 2003, 1⟩] = some ⟨"", 2025, 0⟩ ∧
    (⟨"OSM", 2003, 1⟩ : SourceDescriptor) ≠ ⟨"", 2025, 0⟩ :=
  ⟨rfl, rfl, by decide⟩

/-- C10 (amended): for every non-empty explicit source argument with at
least one matching descriptor, the lookup returns the first matching
descriptor in remote order, ignoring the `year` field. -/
theorem C10_first_match (scenario_id : Int) (response : List SourceDescriptor)
    (s : String) (d : SourceDescriptor) (hs : s ≠ "")
    (hfind : List.find? (fun x => x.source == s) response = some d) :
    get_functional_zone_sources scenario_id response (some s) = Except.ok d := by
  have hne : response ≠ [] := by
    intro h
    subst h
    simp at hfind
  have hemp : response.isEmpty = false := by
    cases response with
    | nil => exact absurd rfl hne
    | cons a t => rfl
  have hsemp : s.isEmpty = false := by
    cases h : s.isEmpty with
    | false => rfl
    | true => exact absurd ((String.isEmpty_iff s).mp h) hs
  simp [get_functional_zone_sources, hemp, hsemp, hfind]

/-- Witness for the amended C10: with two OSM records where the earlier
one has the smaller year, the explicit-source path still returns the
earlier one, showing that no max-year tie-break is applied. -/
theorem C10_first_match_witness :
    get_functional_zone_sources 6 [⟨"OSM", 2019, 0⟩, ⟨"OSM", 2022, 1⟩] (some "OSM") =
      Except.ok ⟨"OSM", 2019, 0⟩ :=
  C10_first_match 6 [⟨"OSM", 2019, 0⟩, ⟨"OSM", 2022, 1⟩] "OSM" ⟨"OSM", 2019, 0⟩
    (by decide) rfl

/-! ### Lemmas about rows and the column pipeline -/

theorem lookup_setCol_self (k : String) (v : JVal) (r : Row) :
    List.lookup k (setCol r k v) = some v := by
  induction r with
  | nil => simp [setCol, List.lookup]
  | cons kv t ih =>
    by_cases hk : kv.1 = k
    · simp [setCol, hk, List.lookup]
    · have h1 : (kv.1 == k) = false := beq_eq_false_iff_ne.mpr hk
      have h2 : (k == kv.1) = false := beq_eq_false_iff_ne.mpr (Ne.symm hk)
      simp [setCol, h1, h2, List.lookup, ih]

theorem lookup_setCol_ne (k q : String) (v : JVal) (hq : q ≠ k) (r : Row) :
    List.lookup q (setCol r k v) = List.lookup q r := by
  induction r with
  | nil => simp [setCol, List.lookup, beq_eq_false_iff_ne.mpr hq]
  | cons kv t ih =>
    by_cases hk : kv.1 = k
    · simp [setCol, hk, List.lookup, beq_eq_false_iff_ne.mpr hq]
    · have h1 : (kv.1 == k) = false := beq_eq_false_iff_ne.mpr hk
      cases hqk : (q == kv.1) with
      | true => simp [setCol, h1, List.lookup, hqk]
      | false => simp [setCol, h1, List.lookup, hqk, ih]

theorem lookup_filter_drop_mem (k : String) (hk : k ∈ dropColumns) (r : Row) :
    List.lookup k (List.filter (fun kv => !(dropColumns.contains kv.1)) r) = none := by
  induction r with
  | nil => rfl
  | cons kv t ih =>
    obtain ⟨a, b⟩ := kv
    rw [List.filter_cons]
    by_cases hkv : a ∈ dropColumns
    · have h1 : dropColumns.contains a = true := List.elem_eq_true_of_mem hkv
      rw [h1, Bool.not_true, if_neg Bool.false_ne_true]
      exact ih
    · have h1 : dropColumns.contains a = false := by
        cases h : dropColumns.contains a with
        | false => rfl
        | true => exact absurd (List.mem_of_elem_eq_true h) hkv
      have hne : (k == a) = false := beq_eq_false_iff_ne.mpr (fun he => hkv (he ▸ hk))
      rw [h1, Bool.not_false, if_pos rfl, List.lookup_cons, hne]
      exact ih

theorem lookup_filter_drop_not_mem (k : String) (hk : k ∉ dropColumns) (r : Row) :
    List.lookup k (List.filter (fun kv => !(dropColumns.contains kv.1)) r) =
      List.lookup k r := by
  induction r with
  | nil => rfl
  | cons kv t ih =>
    obtain ⟨a, b⟩ := kv
    rw [List.filter_cons]
    by_cases hkv : a ∈ dropColumns
    · have h1 : dropColumns.contains a = true := List.elem_eq_true_of_mem hkv
      have hne : (k == a) = false := beq_eq_false_iff_ne.mpr (fun he => hk (he ▸ hkv))
      rw [h1, Bool.not_true, if_neg Bool.false_ne_true, ih, List.lookup_cons, hne]
    · have h1 : dropColumns.contains a = false := by
        cases h : dropColumns.contains a with
        | false => rfl
        | true => exact absurd (List.mem_of_elem_eq_true h) hkv
      rw [h1, Bool.not_false, if_pos rfl, List.lookup_cons, List.lookup_cons]
      cases hka : (k == a) with
      | true => rfl
      | false => exact ih

theorem lookup_map_val (g : String → JVal → JVal) (k : String) (r : Row) :
    List.lookup k (List.map (fun kv => (kv.1, g kv.1 kv.2)) r) =
      Option.map (g k) (List.lookup k r) := by
  induction r with
  | nil => simp [List.lookup]
  | cons kv t ih =>
    by_cases hk : k = kv.1
    · subst hk
      simp [List.lookup]
    · have hbeq : (k == kv.1) = false := beq_eq_false_iff_ne.mpr hk
      simp [List.lookup, hbeq, ih]

theorem replace_landuse_zone_of_ne (v : JVal) (h : v ≠ JVal.null) :
    replace_landuse_zone v = v := by
  cases v with
  | null => exact absurd rfl h
  | num n => rfl
  | str s => rfl
  | bool b => rfl
  | obj fields => rfl

theorem replace_zone_type_id_of_ne (v : JVal) (h : v ≠ JVal.num 14) :
    replace_zone_type_id v = v := by
  cases v with
  | null => rfl
  | num n =>
    have hn : (n == 14) = false :=
      beq_eq_false_iff_ne.mpr (fun he => h (by rw [he]))
    simp [replace_zone_type_id, JVal.isNum14, hn]
  | str s => rfl
  | bool b => rfl
  | obj fields => rfl

theorem zones_row_true_eq (f : Feature) :
    zones_row true true f =
      List.map (fun kv => (kv.1, replaceVal kv.1 kv.2))
        (List.filter (fun kv => !(dropColumns.contains kv.1))
          (setCol (setCol (setCol (setCol f.properties "geometry" f.geometry)
            "landuse_zone" (extract_landuse_zone f))
            "zone_type_id" (extract_zone_type_id f))
            "zone_type_name" (extract_zone_type_name f))) := rfl

theorem zones_row_landuse (f : Feature) :
    List.lookup "landuse_zone" (zones_row true true f) =
      some (replace_landuse_zone (extract_landuse_zone f)) := by
  rw [zones_row_true_eq, lookup_map_val, lookup_filter_drop_not_mem _ (by decide)]
  rw [lookup_setCol_ne _ _ _ (by decide), lookup_setCol_ne _ _ _ (by decide),
    lookup_setCol_self]
  simp [replaceVal]

theorem zones_row_zone_type_id (f : Feature) :
    List.lookup "zone_type_id" (zones_row true true f) =
      some (replace_zone_type_id (extract_zone_type_id f)) := by
  rw [zones_row_true_eq, lookup_map_val, lookup_filter_drop_not_mem _ (by decide)]
  rw [lookup_setCol_ne _ _ _ (by decide), lookup_setCol_self]
  simp [replaceVal]

theorem zones_row_geometry (f : Feature) :
    List.lookup "geometry" (zones_row true true f) = some f.geometry := by
  rw [zones_row_true_eq, lookup_map_val, lookup_filter_drop_not_mem _ (by decide)]
  rw [lookup_setCol_ne _ _ _ (by decide), lookup_setCol_ne _ _ _ (by decide),
    lookup_setCol_ne _ _ _ (by decide), lookup_setCol_self]
  simp [replaceVal]

theorem zones_row_dropped (f : Feature) (c : String) (hc : c ∈ dropColumns) :
    List.lookup c (zones_row true true f) = none := by
  rw [zones_row_true_eq, lookup_map_val, lookup_filter_drop_mem _ hc]
  rfl

theorem tableRow?_ok (t : Table) (i : Nat) : tableRow? (Except.ok t) i = t[i]? := rfl

theorem get_functional_zones_ok (scenario_id : Int) (is_context : Bool)
    (sources_response : List SourceDescriptor) (source : Option String)
    (zones_response : List Feature) (sd : SourceDescriptor)
    (hsrc : get_functional_zone_sources scenario_id sources_response source = Except.ok sd)
    (hne : zones_response ≠ []) :
    get_functional_zones scenario_id is_context sources_response source zones_response =
      Except.ok (transform_zones zones_response) := by
  have hemp : zones_response.isEmpty = false := by
    cases zones_response with
    | nil => exact absurd rfl hne
    | cons a t => rfl
  unfold get_functional_zones
  rw [hsrc]
  simp [hemp]

/-! ### Claims about `get_functional_zones` -/

/-- C4: whenever the source lookup succeeds and the zones response
carries zero features, `get_functional_zones` fails with a 404 instead of
returning a table. -/
theorem C4_empty_features_404 (scenario_id : Int) (is_context : Bool)
    (sources_response : List SourceDescriptor) (source : Option String)
    (sd : SourceDescriptor)
    (hsrc : get_functional_zone_sources scenario_id sources_response source = Except.ok sd) :
    get_functional_zones scenario_id is_context sources_response source [] =
      Except.error (Err.httpException 404 "No functional zones found for the given scenario ID"
        (toString scenario_id)) := by
  unfold get_functional_zones
  rw [hsrc]
  rfl

/-- Witness for C4 at a concrete scenario with one OSM source and an
empty feature collection. -/
theorem C4_empty_features_404_witness :
    get_functional_zones 5 false [⟨"OSM", 2020, 0⟩] none [] =
      Except.error (Err.httpException 404 "No functional zones found for the given scenario ID"
        "5") :=
  C4_empty_features_404 5 false [⟨"OSM", 2020, 0⟩] none ⟨"OSM", 2020, 0⟩ rfl

/-- C7: every table returned by `get_functional_zones` keeps the two
stable output columns plus geometry in every row and drops all the
bookkeeping columns, provided the fetched features carry the nested
`properties` and `functional_zone_type` fields of the assumed remote
schema. -/
theorem C7_pruned_columns (scenario_id : Int) (is_context : Bool)
    (sources_response : List SourceDescriptor) (source : Option String)
    (zones_response : List Feature) (sd : SourceDescriptor)
    (hsrc : get_functional_zone_sources scenario_id sources_response source = Except.ok sd)
    (hne : zones_response ≠ [])
    (hProps : propsColumnPresent zones_response = true)
    (hFZT : fztColumnPresent zones_response = true) :
    returnsPrunedTable scenario_id is_context sources_response source zones_response := by
  unfold returnsPrunedTable
  rw [get_functional_zones_ok _ _ _ _ _ _ hsrc hne]
  intro r hr
  unfold transform_zones at hr
  rw [hProps, hFZT] at hr
  obtain ⟨f, hf, rfl⟩ := List.mem_map.mp hr
  refine ⟨?_, ?_, ?_, fun c hc => zones_row_dropped f c hc⟩
  · rw [zones_row_landuse]
    rfl
  · rw [zones_row_zone_type_id]
    rfl
  · rw [zones_row_geometry]
    rfl

/-- Witness for C7: a one-feature response with ordinary values yields a
pruned table. -/
theorem C7_pruned_columns_witness :
    returnsPrunedTable 9 false [⟨"OSM", 2020, 0⟩] none [featureIndustrial] :=
  C7_pruned_columns 9 false [⟨"OSM", 2020, 0⟩] none [featureIndustrial] ⟨"OSM", 2020, 0⟩
    rfl (List.cons_ne_nil _ _) rfl rfl

/-- C6: in every returned table, a row whose extracted `landuse_zone` was
null carries `"Residential"`, a row whose extracted `zone_type_id` was 14
carries 1, and all other extracted values are returned unchanged (same
schema hypotheses as C7). -/
theorem C6_row_values (scenario_id : Int) (is_context : Bool)
    (sources_response : List SourceDescriptor) (source : Option String)
    (zones_response : List Feature) (sd : SourceDescriptor) (i : Nat) (f : Feature)
    (hsrc : get_functional_zone_sources scenario_id sources_response source = Except.ok sd)
    (hProps : propsColumnPresent zones_response = true)
    (hFZT : fztColumnPresent zones_response = true)
    (hi : zones_response[i]? = some f) :
    zoneRowFaithful scenario_id is_context sources_response source zones_response i f := by
  have hne : zones_response ≠ [] := by
    intro h
    subst h
    simp at hi
  unfold zoneRowFaithful
  rw [get_functional_zones_ok _ _ _ _ _ _ hsrc hne, tableRow?_ok]
  unfold transform_zones
  rw [hProps, hFZT, List.getElem?_map, hi, Option.map_some']
  refine ⟨fun h => ?_, fun h => ?_, fun h => ?_, fun h => ?_⟩
  · rw [zones_row_landuse, h]
    rfl
  · rw [zones_row_landuse, replace_landuse_zone_of_ne _ h]
  · rw [zones_row_zone_type_id, h]
    rfl
  · rw [zones_row_zone_type_id, replace_zone_type_id_of_ne _ h]

/-- Witness for C6: a feature with null `landuse_zon` and zone-type id 14
is returned with `"Residential"` and 1. -/
theorem C6_row_values_witness :
    zoneRowFaithful 8 false [⟨"PZZ", 2021, 0⟩] none [featureNullAnd14] 0 featureNullAnd14 :=
  C6_row_values 8 false [⟨"PZZ", 2021, 0⟩] none [featureNullAnd14] ⟨"PZZ", 2021, 0⟩ 0
    featureNullAnd14 rfl rfl rfl rfl

/-! ### Claims about `get_project_id`, `get_territory` and
`get_indicator_values` -/

/-- C3: the code does NOT surface a 404 when the scenario record lacks a
project id. `response.get("project", {}).get("project_id")` never raises
on a missing key, so the try/except that was meant to produce the 404 is
dead on this path and the operation returns `None` — both for a record
with no `project` object and for a `project` object with no
`project_id` field. -/
theorem C3_get_project_id_returns_null :
    get_project_id 7 (JVal.obj []) = Except.ok JVal.null ∧
    get_project_id 7 (JVal.obj [("project", JVal.obj [("name", JVal.str "p")])]) =
      Except.ok JVal.null ∧
    isNotFound404 (get_project_id 7 (JVal.obj [])) = false :=
  ⟨rfl, rfl, rfl⟩

/-- C8: whenever the project id resolves and the territory fetch
succeeds with a mapping carrying a `geometry` member, `get_territory`
returns a frame with exactly one feature, whose geometry is the remote
territory polygon reprojected from EPSG:4326, and whose CRS is the
estimated UTM CRS of the single-feature EPSG:4326 frame. -/
theorem C8_get_territory_single_reprojected (scenario_id : Int) (scenario_response : JVal)
    (fields : List (String × JVal)) (territory_geometry : JVal)
    (estimate_utm_crs : GeoFrame → String) (g : GeoFrame)
    (hgeom : List.lookup "geometry" fields = some territory_geometry)
    (hok : get_territory scenario_id scenario_response (Except.ok (JVal.obj fields))
      estimate_utm_crs = Except.ok g) :
    g.geoms.length = 1 ∧
    g.crs = estimate_utm_crs ⟨"EPSG:4326", [Geom.raw territory_geometry]⟩ ∧
    g.geoms = [Geom.reprojected "EPSG:4326"
      (estimate_utm_crs ⟨"EPSG:4326", [Geom.raw territory_geometry]⟩)
      (Geom.raw territory_geometry)] := by
  unfold get_territory at hok
  cases hpid : get_project_id scenario_id scenario_response with
  | error e =>
    rw [hpid] at hok
    exact absurd hok (by simp)
  | ok pid =>
    rw [hpid] at hok
    simp only [hgeom, List.map_cons, List.map_nil] at hok
    have hg := Except.ok.inj hok
    subst hg
    exact ⟨rfl, rfl, rfl⟩

/-- Witness for C8 at a concrete scenario record, territory response and
CRS estimator. -/
theorem C8_get_territory_single_reprojected_witness :
    (GeoFrame.mk "EPSG:32636" [Geom.reprojected "EPSG:4326" "EPSG:32636"
      (Geom.raw (JVal.str "territory-polygon"))]).geoms.length = 1 ∧
    (GeoFrame.mk "EPSG:32636" [Geom.reprojected "EPSG:4326" "EPSG:32636"
      (Geom.raw (JVal.str "territory-polygon"))]).crs = "EPSG:32636" ∧
    (GeoFrame.mk "EPSG:32636" [Geom.reprojected "EPSG:4326" "EPSG:32636"
      (Geom.raw (JVal.str "territory-polygon"))]).geoms =
      [Geom.reprojected "EPSG:4326" "EPSG:32636" (Geom.raw (JVal.str "territory-polygon"))] :=
  C8_get_territory_single_reprojected 2
    (JVal.obj [("project", JVal.obj [("project_id", JVal.num 7)])])
    [("geometry", JVal.str "territory-polygon")]
    (JVal.str "territory-polygon")
    (fun _ => "EPSG:32636")
    ⟨"EPSG:32636", [Geom.reprojected "EPSG:4326" "EPSG:32636"
      (Geom.raw (JVal.str "territory-polygon"))]⟩
    rfl rfl

/-- C9: `get_indicator_values` returns the remote response unchanged
exactly when the remote call succeeds, and raises the structured 404
exactly when the remote call fails. -/
theorem C9_get_indicator_values_passthrough (scenario_id : Int)
    (remote : Except String JVal) :
    (∀ v, get_indicator_values scenario_id remote = Except.ok v ↔ remote = Except.ok v) ∧
    ((∃ e, remote = Except.error e) ↔
      get_indicator_values scenario_id remote =
        Except.error (Err.httpException 404
          "No indicators values found for the given scenario ID" (toString scenario_id))) := by
  cases remote with
  | ok v => simp [get_indicator_values]
  | error e => simp [get_indicator_values]

end UrbanAPIGateway
